import Mathlib

/-!
Shallow embedding of `desktop_cat.py` (class `DesktopPetApp`), a Tkinter
desktop-pet program: a six-mode sprite animator (`check` 0..5, frame counter
`cycle`, event number driving transitions), drag handlers with clamping on
release, and a chat popup backed by an external API with a session log.

Modelling conventions:
* Python ints are `Int` (positions) or `Nat` (frame counters, event numbers).
* `random.randrange(first, last + 1, 1)` is externalized as a parameter `r`
  constrained by `first ≤ r ∧ r ≤ last` at the call site.
* The Tk event loop's `after` alternation between `update` and `event` is
  modelled by a `Phase` field; asynchronous mouse/menu callbacks may interleave
  at any point.
* GUI widgets are modelled by the state they carry (enabled flags, lists of
  inserted text segments); the external Gemini call is an abstract outcome.
-/

namespace DesktopCat

/-- Work-area and pet sizes, as queried by `_get_working_area` / `_get_pet_size`.
These are external (OS / toolkit) quantities; the code re-queries them on each
clamp, and we model them as fixed parameters of a run. -/
structure WorkArea where
  working_w : Int
  working_h : Int
  pet_w : Int
  pet_h : Int

/-- `DesktopPetApp._clamp_position`: clamp `(x, y)` into
`[0, max 0 (working_w - pet_w)] × [0, max 0 (working_h - pet_h)]`.
The source computes `min_x, max_x = 0, max(0, working_w - pet_w)` and sets
`self.x = max(min_x, min(self.x, max_x))`, and likewise for `y`. -/
def clamp_position (wa : WorkArea) (x y : Int) : Int × Int :=
  (max 0 (min x (max 0 (wa.working_w - wa.pet_w))),
   max 0 (min y (max 0 (wa.working_h - wa.pet_h))))

/-- `DesktopPetApp.gif_work(frames, first_num, last_num)`:
`if self.cycle < len(frames) - 1: self.cycle += 1` else reset the cycle to `0`
and draw a fresh `event_number = random.randrange(first_num, last_num + 1, 1)`.
`framesLen` is `len(frames)`; the random draw is the parameter `r`.
Returns the new `(cycle, event_number)` pair. -/
def gif_work (cycle framesLen event_number r : Nat) : Nat × Nat :=
  if cycle < framesLen - 1 then (cycle + 1, event_number) else (0, r)

/-- `self.idle_num = [1, 2, 3, 4]` -/
def idle_num : List Nat := [1, 2, 3, 4]

/-- `self.sleep_num = [10, 11, 12, 13, 15]` -/
def sleep_num : List Nat := [10, 11, 12, 13, 15]

/-- `self.walk_left_num = [6, 7]` -/
def walk_left_num : List Nat := [6, 7]

/-- `self.walk_right_num = [8, 9]` -/
def walk_right_num : List Nat := [8, 9]

/-- Number of frames of each animation, from the loader: `idle` has 5 frames,
`idle_to_sleep` 8, `sleep` 3, `sleep_to_idle` 8, `walk_positive` 8,
`walk_negative` 8 (the `range(...)` bounds in `__init__`). Indexed by the
`check` mode code used in `update`/`event`. -/
def numFrames : Nat → Nat
  | 0 => 5
  | 1 => 8
  | 2 => 3
  | 3 => 8
  | 4 => 8
  | 5 => 8
  | _ => 0

/-- The `(first_num, last_num)` pair passed to `gif_work` in each branch of
`update`: `(1, 9)` for idle, `(10, 10)` for idle-to-sleep, `(10, 15)` for
sleep, `(1, 1)` for sleep-to-idle, `(1, 9)` for both walking modes. -/
def gifRange : Nat → Nat × Nat
  | 0 => (1, 9)
  | 1 => (10, 10)
  | 2 => (10, 15)
  | 3 => (1, 1)
  | 4 => (1, 9)
  | 5 => (1, 9)
  | _ => (0, 0)

/-- The `check` value assigned by `DesktopPetApp.event` from `event_number`,
following the source's `if`/`elif` chain; when no branch matches, `check`
keeps its old value. -/
def eventCheck (ev check : Nat) : Nat :=
  if ev ∈ idle_num then 0
  else if ev = 5 then 1
  else if ev ∈ walk_left_num then 4
  else if ev ∈ walk_right_num then 5
  else if ev ∈ sleep_num then 2
  else if ev = 14 then 3
  else check

/-- Which of `update` / `event` the Tk `after` queue will run next:
`__init__` schedules `update`; `update` ends with `after(1, self.event)`;
each matched branch of `event` schedules `update` again. -/
inductive Phase where
  | update : Phase
  | runEvent : Phase
deriving DecidableEq

/-- The mutable fields of `DesktopPetApp` relevant to animation and dragging:
position `x, y`, frame counter `cycle`, current animation `check`, pending
`event_number`, the `is_dragging` flag, and the scheduler phase. -/
structure PetState where
  x : Int
  y : Int
  cycle : Nat
  check : Nat
  event_number : Nat
  is_dragging : Bool
  phase : Phase
deriving DecidableEq

/-- One run of `DesktopPetApp.update` with random draw `r`: when not dragging,
the branch for the current `check` advances the animation via `gif_work` and,
in the walking modes, moves `x` by ∓3 and calls `_clamp_position`; when
dragging (or when `check` matches no branch) state is unchanged. In all cases
`after(1, self.event)` hands control to `event`. -/
def updateStep (wa : WorkArea) (r : Nat) (s : PetState) : PetState :=
  if s.is_dragging then { s with phase := Phase.runEvent }
  else if s.check = 0 then
    let ce := gif_work s.cycle 5 s.event_number r
    { s with cycle := ce.1, event_number := ce.2, phase := Phase.runEvent }
  else if s.check = 1 then
    let ce := gif_work s.cycle 8 s.event_number r
    { s with cycle := ce.1, event_number := ce.2, phase := Phase.runEvent }
  else if s.check = 2 then
    let ce := gif_work s.cycle 3 s.event_number r
    { s with cycle := ce.1, event_number := ce.2, phase := Phase.runEvent }
  else if s.check = 3 then
    let ce := gif_work s.cycle 8 s.event_number r
    { s with cycle := ce.1, event_number := ce.2, phase := Phase.runEvent }
  else if s.check = 4 then
    let ce := gif_work s.cycle 8 s.event_number r
    let p := clamp_position wa (s.x - 3) s.y
    { s with cycle := ce.1, event_number := ce.2, x := p.1, y := p.2,
             phase := Phase.runEvent }
  else if s.check = 5 then
    let ce := gif_work s.cycle 8 s.event_number r
    let p := clamp_position wa (s.x + 3) s.y
    { s with cycle := ce.1, event_number := ce.2, x := p.1, y := p.2,
             phase := Phase.runEvent }
  else { s with phase := Phase.runEvent }

/-- One run of `DesktopPetApp.event`: set `check` from `event_number` per the
`if`/`elif` chain, scheduling `update` again; when no branch matches, nothing
happens (and no `update` is scheduled, so the phase stays). -/
def eventStep (s : PetState) : PetState :=
  if s.event_number ∈ idle_num then { s with check := 0, phase := Phase.update }
  else if s.event_number = 5 then { s with check := 1, phase := Phase.update }
  else if s.event_number ∈ walk_left_num then { s with check := 4, phase := Phase.update }
  else if s.event_number ∈ walk_right_num then { s with check := 5, phase := Phase.update }
  else if s.event_number ∈ sleep_num then { s with check := 2, phase := Phase.update }
  else if s.event_number = 14 then { s with check := 3, phase := Phase.update }
  else s

/-- The state after `__init__`: an OS-dependent starting point `(x0, y0)`
passed through `_clamp_position`, `cycle = 0`, `check = 0`,
`event_number = random.randrange(1, 3, 1)` (the argument `ev0`), no drag in
progress, and `after(1, self.update)` scheduled. -/
def initState (wa : WorkArea) (x0 y0 : Int) (ev0 : Nat) : PetState :=
  { x := (clamp_position wa x0 y0).1
    y := (clamp_position wa x0 y0).2
    cycle := 0
    check := 0
    event_number := ev0
    is_dragging := false
    phase := Phase.update }

/-- The transitions of the program: the timer-driven `update`/`event`
alternation (with the `randrange` draw `r` constrained to the branch's range)
interleaved with the asynchronous mouse callbacks `on_drag_start`,
`on_drag_motion` (which moves without clamping), `on_drag_release` (which
clamps), and the context-menu calls `set_animation_event(5 | 6 | 8)`. -/
inductive Step (wa : WorkArea) : PetState → PetState → Prop where
  | tickUpdate (s : PetState) (r : Nat)
      (hr1 : (gifRange s.check).1 ≤ r) (hr2 : r ≤ (gifRange s.check).2)
      (hph : s.phase = Phase.update) :
      Step wa s (updateStep wa r s)
  | tickEvent (s : PetState) (hph : s.phase = Phase.runEvent) :
      Step wa s (eventStep s)
  | dragStart (s : PetState) :
      Step wa s { s with is_dragging := true }
  | dragMotion (s : PetState) (nx ny : Int) (h : s.is_dragging = true) :
      Step wa s { s with x := nx, y := ny }
  | dragRelease (s : PetState) :
      Step wa s { s with is_dragging := false,
                         x := (clamp_position wa s.x s.y).1,
                         y := (clamp_position wa s.x s.y).2 }
  | setAnim (s : PetState) (n : Nat) (hn : n = 5 ∨ n = 6 ∨ n = 8) :
      Step wa s { s with event_number := n, cycle := 0 }

/-- States reachable from `__init__` under `Step`. -/
inductive Reachable (wa : WorkArea) : PetState → Prop where
  | init (x0 y0 : Int) (ev0 : Nat) (hev : ev0 = 1 ∨ ev0 = 2) :
      Reachable wa (initState wa x0 y0 ev0)
  | step {s s' : PetState} :
      Reachable wa s → Step wa s s' → Reachable wa s'

/-- The position bounds enforced by `_clamp_position`. -/
def PosOK (wa : WorkArea) (s : PetState) : Prop :=
  0 ≤ s.x ∧ s.x ≤ max 0 (wa.working_w - wa.pet_w) ∧
  0 ≤ s.y ∧ s.y ≤ max 0 (wa.working_h - wa.pet_h)

/-- Inductive invariant: the mode code is one of 0..5, the frame counter is in
range for the current animation, the counter is also in range for the
animation the pending `event_number` selects (needed between `update` and
`event`), and the position is inside the work area whenever no drag is in
progress. -/
def Inv (wa : WorkArea) (s : PetState) : Prop :=
  s.check ≤ 5 ∧
  s.cycle < numFrames s.check ∧
  (s.phase = Phase.runEvent → s.cycle < numFrames (eventCheck s.event_number s.check)) ∧
  (s.phase = Phase.update → eventCheck s.event_number s.check = s.check ∨ s.cycle = 0) ∧
  (s.is_dragging = false → PosOK wa s)

lemma clamp_posOK (wa : WorkArea) (x y : Int) :
    0 ≤ (clamp_position wa x y).1 ∧
    (clamp_position wa x y).1 ≤ max 0 (wa.working_w - wa.pet_w) ∧
    0 ≤ (clamp_position wa x y).2 ∧
    (clamp_position wa x y).2 ≤ max 0 (wa.working_h - wa.pet_h) := by
  simp only [clamp_position]
  refine ⟨?_, ?_, ?_, ?_⟩ <;> omega

lemma clamp_fix (wa : WorkArea) (x y : Int)
    (hx1 : 0 ≤ x) (hx2 : x ≤ max 0 (wa.working_w - wa.pet_w))
    (hy1 : 0 ≤ y) (hy2 : y ≤ max 0 (wa.working_h - wa.pet_h)) :
    clamp_position wa x y = (x, y) := by
  simp only [clamp_position, Prod.mk.injEq]
  omega

lemma clamp_snd_fix (wa : WorkArea) (a y : Int)
    (hy1 : 0 ≤ y) (hy2 : y ≤ max 0 (wa.working_h - wa.pet_h)) :
    (clamp_position wa a y).2 = y := by
  simp only [clamp_position]
  omega

lemma numFrames_pos (c : Nat) (h : c ≤ 5) : 0 < numFrames c := by
  interval_cases c <;> decide

lemma one_lt_numFrames (c : Nat) (h : c ≤ 5) : 1 < numFrames c := by
  interval_cases c <;> decide

lemma eventCheck_le (ev c : Nat) (h : c ≤ 5) : eventCheck ev c ≤ 5 := by
  unfold eventCheck
  split_ifs <;> omega

lemma eventCheck_idem (ev c : Nat) :
    eventCheck ev (eventCheck ev c) = eventCheck ev c := by
  unfold eventCheck
  split_ifs <;> rfl

lemma eventStep_spec (s : PetState) :
    eventStep s = { s with check := eventCheck s.event_number s.check,
                           phase := Phase.update } ∨
    (eventCheck s.event_number s.check = s.check ∧ eventStep s = s) := by
  unfold eventStep eventCheck
  split_ifs <;> first
    | exact Or.inl rfl
    | exact Or.inr ⟨rfl, rfl⟩

lemma inv_init (wa : WorkArea) (x0 y0 : Int) (ev0 : Nat) :
    Inv wa (initState wa x0 y0 ev0) := by
  refine ⟨?_, ?_, ?_, ?_, ?_⟩
  · show (0 : Nat) ≤ 5
    decide
  · show (0 : Nat) < numFrames 0
    decide
  · intro h
    exact Phase.noConfusion h
  · intro _
    exact Or.inr rfl
  · intro _
    exact clamp_posOK wa x0 y0

lemma updateStep_eq (wa : WorkArea) (r : Nat) (s : PetState)
    (h : s.check ≤ 5) (hd : s.is_dragging = false) :
    updateStep wa r s =
      if s.check = 4 then
        { s with cycle := (gif_work s.cycle (numFrames s.check) s.event_number r).1,
                 event_number := (gif_work s.cycle (numFrames s.check) s.event_number r).2,
                 x := (clamp_position wa (s.x - 3) s.y).1,
                 y := (clamp_position wa (s.x - 3) s.y).2,
                 phase := Phase.runEvent }
      else if s.check = 5 then
        { s with cycle := (gif_work s.cycle (numFrames s.check) s.event_number r).1,
                 event_number := (gif_work s.cycle (numFrames s.check) s.event_number r).2,
                 x := (clamp_position wa (s.x + 3) s.y).1,
                 y := (clamp_position wa (s.x + 3) s.y).2,
                 phase := Phase.runEvent }
      else
        { s with cycle := (gif_work s.cycle (numFrames s.check) s.event_number r).1,
                 event_number := (gif_work s.cycle (numFrames s.check) s.event_number r).2,
                 phase := Phase.runEvent } := by
  have h6 : s.check = 0 ∨ s.check = 1 ∨ s.check = 2 ∨ s.check = 3 ∨
      s.check = 4 ∨ s.check = 5 := by omega
  rcases h6 with hck | hck | hck | hck | hck | hck <;>
    simp [updateStep, hd, hck, numFrames]

lemma gif_next_ok (s : PetState) (r : Nat)
    (hc5 : s.check ≤ 5) (hcy : s.cycle < numFrames s.check)
    (hdisj : eventCheck s.event_number s.check = s.check ∨ s.cycle = 0) :
    (gif_work s.cycle (numFrames s.check) s.event_number r).1 < numFrames s.check ∧
    (gif_work s.cycle (numFrames s.check) s.event_number r).1 <
      numFrames (eventCheck (gif_work s.cycle (numFrames s.check) s.event_number r).2 s.check) := by
  unfold gif_work
  by_cases hlt : s.cycle < numFrames s.check - 1
  · simp only [if_pos hlt]
    constructor
    · omega
    · rcases hdisj with hl | h0
      · rw [hl]
        omega
      · rw [h0]
        have := one_lt_numFrames _ (eventCheck_le s.event_number s.check hc5)
        omega
  · simp only [if_neg hlt]
    exact ⟨numFrames_pos _ hc5, numFrames_pos _ (eventCheck_le r _ hc5)⟩

lemma inv_gif_state (wa : WorkArea) (s : PetState)
    (cyc' ev' : Nat) (x' y' : Int)
    (hc5 : s.check ≤ 5)
    (hgood : cyc' < numFrames s.check ∧ cyc' < numFrames (eventCheck ev' s.check))
    (hp : s.is_dragging = false →
      0 ≤ x' ∧ x' ≤ max 0 (wa.working_w - wa.pet_w) ∧
      0 ≤ y' ∧ y' ≤ max 0 (wa.working_h - wa.pet_h)) :
    Inv wa { s with cycle := cyc', event_number := ev', x := x', y := y',
                    phase := Phase.runEvent } :=
  ⟨hc5, hgood.1, fun _ => hgood.2, fun hq => Phase.noConfusion hq, fun hdr => hp hdr⟩

lemma inv_update (wa : WorkArea) (r : Nat) (s : PetState)
    (hI : Inv wa s) (hph : s.phase = Phase.update) :
    Inv wa (updateStep wa r s) := by
  obtain ⟨hc5, hcy, _, hupd, hpos⟩ := hI
  have hdisj := hupd hph
  by_cases hd : s.is_dragging = true
  · have heq : updateStep wa r s = { s with phase := Phase.runEvent } := by
      simp [updateStep, hd]
    rw [heq]
    refine ⟨hc5, hcy, ?_, ?_, ?_⟩
    · intro _
      rcases hdisj with hl | h0
      · rw [hl]
        exact hcy
      · rw [h0]
        exact numFrames_pos _ (eventCheck_le _ _ hc5)
    · intro hq
      exact Phase.noConfusion hq
    · intro hdr
      exact Bool.noConfusion (hd.symm.trans hdr)
  · replace hd : s.is_dragging = false := by simpa using hd
    rw [updateStep_eq wa r s hc5 hd]
    have hg := gif_next_ok s r hc5 hcy hdisj
    by_cases h4 : s.check = 4
    · rw [if_pos h4]
      exact inv_gif_state wa s _ _ _ _ hc5 hg
        (fun _ => clamp_posOK wa (s.x - 3) s.y)
    · rw [if_neg h4]
      by_cases h5 : s.check = 5
      · rw [if_pos h5]
        exact inv_gif_state wa s _ _ _ _ hc5 hg
          (fun _ => clamp_posOK wa (s.x + 3) s.y)
      · rw [if_neg h5]
        exact inv_gif_state wa s _ _ s.x s.y hc5 hg (fun hdr => hpos hdr)

lemma inv_event (wa : WorkArea) (s : PetState)
    (hI : Inv wa s) (hph : s.phase = Phase.runEvent) :
    Inv wa (eventStep s) := by
  obtain ⟨hc5, hcy, hevp, hupd, hpos⟩ := hI
  have hcy' := hevp hph
  rcases eventStep_spec s with h | h
  · rw [h]
    refine ⟨eventCheck_le _ _ hc5, hcy', ?_, ?_, ?_⟩
    · intro hq
      exact Phase.noConfusion hq
    · intro _
      exact Or.inl (eventCheck_idem _ _)
    · intro hdr
      exact hpos hdr
  · rw [h.2]
    exact ⟨hc5, hcy, hevp, hupd, hpos⟩

lemma inv_step (wa : WorkArea) {s s' : PetState}
    (hI : Inv wa s) (hs : Step wa s s') : Inv wa s' := by
  cases hs with
  | tickUpdate r hr1 hr2 hph => exact inv_update wa r s hI hph
  | tickEvent hph => exact inv_event wa s hI hph
  | dragStart =>
      obtain ⟨hc5, hcy, hevp, hupd, hpos⟩ := hI
      refine ⟨hc5, hcy, hevp, hupd, ?_⟩
      intro hdr
      exact Bool.noConfusion hdr
  | dragMotion nx ny h =>
      obtain ⟨hc5, hcy, hevp, hupd, hpos⟩ := hI
      refine ⟨hc5, hcy, hevp, hupd, ?_⟩
      intro hdr
      exact Bool.noConfusion (h.symm.trans hdr)
  | dragRelease =>
      obtain ⟨hc5, hcy, hevp, hupd, hpos⟩ := hI
      exact ⟨hc5, hcy, hevp, hupd, fun _ => clamp_posOK wa s.x s.y⟩
  | setAnim n hn =>
      obtain ⟨hc5, hcy, hevp, hupd, hpos⟩ := hI
      refine ⟨hc5, numFrames_pos _ hc5, ?_, ?_, ?_⟩
      · intro _
        exact numFrames_pos _ (eventCheck_le n _ hc5)
      · intro _
        exact Or.inr rfl
      · intro hdr
        exact hpos hdr

lemma reachable_inv (wa : WorkArea) {s : PetState}
    (h : Reachable wa s) : Inv wa s := by
  induction h with
  | init x0 y0 ev0 hev => exact inv_init wa x0 y0 ev0
  | step hr hs ih => exact inv_step wa ih hs

/-- C1: after `_clamp_position`, the position lies in
`[0, max 0 (working_w - pet_w)] × [0, max 0 (working_h - pet_h)]`, and a
position already inside that rectangle is left unchanged. -/
theorem clamp_position_correct (wa : WorkArea) (x y : Int) :
    (0 ≤ (clamp_position wa x y).1 ∧
     (clamp_position wa x y).1 ≤ max 0 (wa.working_w - wa.pet_w) ∧
     0 ≤ (clamp_position wa x y).2 ∧
     (clamp_position wa x y).2 ≤ max 0 (wa.working_h - wa.pet_h)) ∧
    (0 ≤ x → x ≤ max 0 (wa.working_w - wa.pet_w) →
     0 ≤ y → y ≤ max 0 (wa.working_h - wa.pet_h) →
     clamp_position wa x y = (x, y)) := by
  constructor
  · simp only [clamp_position]
    refine ⟨?_, ?_, ?_, ?_⟩ <;> omega
  · intro hx1 hx2 hy1 hy2
    simp only [clamp_position, Prod.mk.injEq]
    omega

/-- Witness for C1 at a concrete work area and an in-bounds point. -/
theorem clamp_position_correct_witness :
    (0 ≤ (5 : Int) ∧ (5 : Int) ≤ max 0 ((1920 : Int) - 100) ∧
     0 ≤ (7 : Int) ∧ (7 : Int) ≤ max 0 ((1040 : Int) - 100)) ∧
    clamp_position ⟨1920, 1040, 100, 100⟩ 5 7 = (5, 7) :=
  ⟨by decide,
   (clamp_position_correct ⟨1920, 1040, 100, 100⟩ 5 7).2
     (by decide) (by decide) (by decide) (by decide)⟩

/-- C4: one `gif_work` step either increments the cycle by 1 leaving the event
number unchanged (when `cycle < len(frames) - 1`), or resets the cycle to 0 and
draws the new event number from `[first_num, last_num]`; no other behaviour. -/
theorem gif_work_step_spec (cycle framesLen event_number first_num last_num r : Nat)
    (hr1 : first_num ≤ r) (hr2 : r ≤ last_num) :
    (cycle < framesLen - 1 →
      gif_work cycle framesLen event_number r = (cycle + 1, event_number)) ∧
    (framesLen - 1 ≤ cycle →
      gif_work cycle framesLen event_number r = (0, r) ∧
      first_num ≤ (gif_work cycle framesLen event_number r).2 ∧
      (gif_work cycle framesLen event_number r).2 ≤ last_num) := by
  constructor
  · intro h
    simp [gif_work, h]
  · intro h
    have hnot : ¬ cycle < framesLen - 1 := by omega
    simp [gif_work, hnot]
    exact ⟨hr1, hr2⟩

/-- Witness for C4: both branches at concrete inputs. -/
theorem gif_work_step_spec_witness :
    gif_work 2 5 3 7 = (3, 3) ∧ gif_work 4 5 3 7 = (0, 7) :=
  ⟨((gif_work_step_spec 2 5 3 1 9 7 (by decide) (by decide)).1 (by decide)),
   ((gif_work_step_spec 4 5 3 1 9 7 (by decide) (by decide)).2 (by decide)).1⟩

/-- A concrete work area (1920×1040 work area, 100×100 pet) for witnesses. -/
def waDemo : WorkArea := ⟨1920, 1040, 100, 100⟩

/-- A mid-drag state the program can reach: after `on_drag_start` and an
`on_drag_motion` to `(-50, -60)`, before `on_drag_release`. -/
def badDrag : PetState :=
  { x := -50, y := -60, cycle := 0, check := 0, event_number := 1,
    is_dragging := true, phase := Phase.update }

/-- C2 is false as stated: `on_drag_motion` moves the pet without clamping
(the source comments "final clamp will apply on release"), so a reachable
in-progress-drag state lies outside the work area. -/
theorem position_invariant_counterexample :
    Reachable waDemo badDrag ∧ badDrag.is_dragging = true ∧
    ¬ (0 ≤ badDrag.x ∧ badDrag.x ≤ max 0 (waDemo.working_w - waDemo.pet_w) ∧
       0 ≤ badDrag.y ∧ badDrag.y ≤ max 0 (waDemo.working_h - waDemo.pet_h)) := by
  refine ⟨?_, rfl, by decide⟩
  have h0 : Reachable waDemo (initState waDemo 0 0 1) :=
    Reachable.init 0 0 1 (Or.inl rfl)
  have h1 : Reachable waDemo { initState waDemo 0 0 1 with is_dragging := true } :=
    Reachable.step h0 (Step.dragStart _)
  have h2 := Reachable.step h1 (Step.dragMotion _ (-50) (-60) rfl)
  exact h2

/-- C2 (amended): in every reachable state in which no drag is in progress
(`is_dragging = false`), the position lies within the work area,
`0 ≤ x ≤ max 0 (working_w - pet_w)` and `0 ≤ y ≤ max 0 (working_h - pet_h)`;
during an in-progress drag the position may leave the work area, the clamp
being applied only on release and on walking ticks. -/
theorem position_invariant_no_drag (wa : WorkArea) (s : PetState)
    (h : Reachable wa s) (hd : s.is_dragging = false) :
    0 ≤ s.x ∧ s.x ≤ max 0 (wa.working_w - wa.pet_w) ∧
    0 ≤ s.y ∧ s.y ≤ max 0 (wa.working_h - wa.pet_h) :=
  (reachable_inv wa h).2.2.2.2 hd

/-- Witness for the amended C2 at the initial state. -/
theorem position_invariant_no_drag_witness :
    0 ≤ (initState waDemo 200 300 1).x ∧
    (initState waDemo 200 300 1).x ≤ max 0 (waDemo.working_w - waDemo.pet_w) ∧
    0 ≤ (initState waDemo 200 300 1).y ∧
    (initState waDemo 200 300 1).y ≤ max 0 (waDemo.working_h - waDemo.pet_h) :=
  position_invariant_no_drag waDemo (initState waDemo 200 300 1)
    (Reachable.init 200 300 1 (Or.inl rfl)) rfl

/-- C3: in every reachable state the frame index `cycle` is within the bounds
of the current mode's animation (`numFrames check`, the per-mode frame counts
5, 8, 3, 8, 8, 8); this holds across update ticks, `gif_work` steps, `event`
steps, drags, and `set_animation_event`. -/
theorem frame_index_in_bounds (wa : WorkArea) (s : PetState)
    (h : Reachable wa s) : s.cycle < numFrames s.check :=
  (reachable_inv wa h).2.1

/-- Witness for C3 at the initial state. -/
theorem frame_index_in_bounds_witness :
    (initState waDemo 0 0 1).cycle < numFrames (initState waDemo 0 0 1).check :=
  frame_index_in_bounds waDemo (initState waDemo 0 0 1)
    (Reachable.init 0 0 1 (Or.inl rfl))

/-- C5: cycle-completion transitions between modes. When a cycle of mode
`check` completes, `gif_work` draws `r` from `gifRange check` and `event`
switches to `eventCheck r check`: from sleep (2) only sleep or sleep-to-idle;
from idle-to-sleep (1) always sleep via event number 10; from sleep-to-idle
(3) always idle via event number 1; from idle (0) or a walking mode (4, 5)
only idle, idle-to-sleep, walk-left, or walk-right; and the mode always stays
one of the six codes 0..5. In particular sleep never steps directly to or
from a walking mode. -/
theorem mode_transition_spec (check r : Nat)
    (hr1 : (gifRange check).1 ≤ r) (hr2 : r ≤ (gifRange check).2) :
    (check = 2 → 10 ≤ r ∧ r ≤ 15 ∧
      (eventCheck r check = 2 ∨ eventCheck r check = 3)) ∧
    (check = 1 → r = 10 ∧ eventCheck r check = 2) ∧
    (check = 3 → r = 1 ∧ eventCheck r check = 0) ∧
    ((check = 0 ∨ check = 4 ∨ check = 5) →
      1 ≤ r ∧ r ≤ 9 ∧
      (eventCheck r check = 0 ∨ eventCheck r check = 1 ∨
       eventCheck r check = 4 ∨ eventCheck r check = 5)) ∧
    (check ≤ 5 → eventCheck r check ≤ 5) := by
  refine ⟨?_, ?_, ?_, ?_, fun h => eventCheck_le r check h⟩
  · intro h
    subst h
    simp only [gifRange] at hr1 hr2
    refine ⟨hr1, hr2, ?_⟩
    interval_cases r <;> decide
  · intro h
    subst h
    simp only [gifRange] at hr1 hr2
    have hr : r = 10 := by omega
    subst hr
    exact ⟨rfl, by decide⟩
  · intro h
    subst h
    simp only [gifRange] at hr1 hr2
    have hr : r = 1 := by omega
    subst hr
    exact ⟨rfl, by decide⟩
  · rintro (h | h | h) <;> subst h <;> simp only [gifRange] at hr1 hr2 <;>
      exact ⟨hr1, hr2, by interval_cases r <;> decide⟩

/-- Witness for C5: a sleep cycle completing with draw 14 goes to
sleep-to-idle. -/
theorem mode_transition_spec_witness :
    eventCheck 14 2 = 2 ∨ eventCheck 14 2 = 3 :=
  ((mode_transition_spec 2 14 (by decide) (by decide)).1 rfl).2.2

/-- C8: an update tick moves the pet only in the walking modes: in mode 4
(walk-left) `x` becomes `x - 3` clamped, in mode 5 (walk-right) `x + 3`
clamped; in all other modes, and during an active drag, `x` is unchanged; `y`
is never changed by a tick (in reachable states it is already in bounds, so
the walk-tick clamp leaves it fixed). -/
theorem update_position_effect (wa : WorkArea) (s : PetState) (r : Nat)
    (h : Reachable wa s) :
    (updateStep wa r s).y = s.y ∧
    (s.is_dragging = true → (updateStep wa r s).x = s.x) ∧
    (s.is_dragging = false → s.check = 4 →
      (updateStep wa r s).x = (clamp_position wa (s.x - 3) s.y).1) ∧
    (s.is_dragging = false → s.check = 5 →
      (updateStep wa r s).x = (clamp_position wa (s.x + 3) s.y).1) ∧
    (s.is_dragging = false → s.check ≠ 4 → s.check ≠ 5 →
      (updateStep wa r s).x = s.x) := by
  obtain ⟨hc5, _, _, _, hpos⟩ := reachable_inv wa h
  by_cases hd : s.is_dragging = true
  · have heq : updateStep wa r s = { s with phase := Phase.runEvent } := by
      simp [updateStep, hd]
    rw [heq]
    exact ⟨rfl, fun _ => rfl,
      fun hdf => Bool.noConfusion (hd.symm.trans hdf),
      fun hdf => Bool.noConfusion (hd.symm.trans hdf),
      fun hdf => Bool.noConfusion (hd.symm.trans hdf)⟩
  · replace hd : s.is_dragging = false := by simpa using hd
    have hy := (hpos hd).2.2
    rw [updateStep_eq wa r s hc5 hd]
    by_cases h4 : s.check = 4
    · rw [if_pos h4]
      refine ⟨clamp_snd_fix wa (s.x - 3) s.y hy.1 hy.2, ?_, ?_, ?_, ?_⟩
      · intro hdt
        exact Bool.noConfusion (hd.symm.trans hdt)
      · intro _ _
        rfl
      · intro _ hck5
        exact absurd (h4.symm.trans hck5) (by decide)
      · intro _ hck4 _
        exact absurd h4 hck4
    · rw [if_neg h4]
      by_cases h5 : s.check = 5
      · rw [if_pos h5]
        refine ⟨clamp_snd_fix wa (s.x + 3) s.y hy.1 hy.2, ?_, ?_, ?_, ?_⟩
        · intro hdt
          exact Bool.noConfusion (hd.symm.trans hdt)
        · intro _ hck4
          exact absurd (h5.symm.trans hck4) (by decide)
        · intro _ _
          rfl
        · intro _ _ hck5
          exact absurd h5 hck5
      · rw [if_neg h5]
        refine ⟨rfl, ?_, ?_, ?_, ?_⟩
        · intro hdt
          exact Bool.noConfusion (hd.symm.trans hdt)
        · intro _ hck4
          exact absurd hck4 h4
        · intro _ hck5
          exact absurd hck5 h5
        · intro _ _ _
          rfl

/-- Witness for C8 at the initial state with draw 1. -/
theorem update_position_effect_witness :
    (updateStep waDemo 1 (initState waDemo 0 0 1)).y = (initState waDemo 0 0 1).y ∧
    ((initState waDemo 0 0 1).is_dragging = true →
      (updateStep waDemo 1 (initState waDemo 0 0 1)).x = (initState waDemo 0 0 1).x) ∧
    ((initState waDemo 0 0 1).is_dragging = false → (initState waDemo 0 0 1).check = 4 →
      (updateStep waDemo 1 (initState waDemo 0 0 1)).x =
        (clamp_position waDemo ((initState waDemo 0 0 1).x - 3) (initState waDemo 0 0 1).y).1) ∧
    ((initState waDemo 0 0 1).is_dragging = false → (initState waDemo 0 0 1).check = 5 →
      (updateStep waDemo 1 (initState waDemo 0 0 1)).x =
        (clamp_position waDemo ((initState waDemo 0 0 1).x + 3) (initState waDemo 0 0 1).y).1) ∧
    ((initState waDemo 0 0 1).is_dragging = false →
      (initState waDemo 0 0 1).check ≠ 4 → (initState waDemo 0 0 1).check ≠ 5 →
      (updateStep waDemo 1 (initState waDemo 0 0 1)).x = (initState waDemo 0 0 1).x) :=
  update_position_effect waDemo (initState waDemo 0 0 1) 1
    (Reachable.init 0 0 1 (Or.inl rfl))

/-- Result of the external call `self.gemini_chat.send_message(user_message)`:
either a reply text or a raised exception rendered as a string. The vendor
library is a black box; only these two outcomes reach the handler. -/
inductive ApiOutcome where
  | ok (text : String) : ApiOutcome
  | err (e : String) : ApiOutcome
deriving DecidableEq

/-- `_get_gemini_response`: inside `try`, a missing `self.gemini_chat` raises
`RuntimeError("Gemini is not initialized.")`; any exception `e` (from the
raise or from `send_message`) is caught and the reply becomes
`f"Meow... (Error: e)"`; otherwise the reply is `response.text`. -/
def get_gemini_response (gemini_chat : Option Unit) (outcome : ApiOutcome) : String :=
  match gemini_chat with
  | none => "Meow... (Error: Gemini is not initialized.)"
  | some _ =>
      match outcome with
      | ApiOutcome.ok t => t
      | ApiOutcome.err e => "Meow... (Error: " ++ e ++ ")"

/-- The pending indicator inserted by `send_chat_message` and removed by
`_update_chat_with_response`. -/
def typingLine : String := "Neko is typing...\n\n"

/-- The chat widgets' state: the entry's text, the enabled flags of the entry
and send button, the text segments inserted into the display, the in-memory
session message list, and whether an API worker thread was started. -/
structure ChatUiState where
  entry_text : String
  entry_enabled : Bool
  send_enabled : Bool
  display : List String
  session_messages : List String
  thread_started : Bool
deriving DecidableEq

/-- `_update_chat_with_response(neko_response)`: delete the typing indicator
from the display, insert `"Neko: " + response + "\n\n"`, store
`"[ts] Neko: response"` in the session list, and re-enable the entry and the
send button. `ts` is the wall-clock `HH:MM:SS` timestamp. -/
def update_chat_with_response (ts neko_response : String) (st : ChatUiState) : ChatUiState :=
  { st with
    display := (st.display.filter (fun m => m != typingLine)) ++
      ["Neko: " ++ neko_response ++ "\n\n"],
    session_messages := st.session_messages ++ ["[" ++ ts ++ "] Neko: " ++ neko_response],
    entry_enabled := true,
    send_enabled := true }

/-- The background thread body followed by the `after(0, ...)` marshal back to
the UI thread: compute the reply (or error string) and apply
`_update_chat_with_response`. -/
def gemini_roundtrip (gemini_chat : Option Unit) (outcome : ApiOutcome)
    (ts : String) (st : ChatUiState) : ChatUiState :=
  update_chat_with_response ts (get_gemini_response gemini_chat outcome) st

/-- The whitespace characters removed by Python's `str.strip()` (the ASCII
ones: space, tab, newline, carriage return, vertical tab, form feed). -/
def pyWhitespace (c : Char) : Bool :=
  c == ' ' || c == '\t' || c == '\n' || c == '\r' || c == '\x0b' || c == '\x0c'

/-- Python's `str.strip()`: drop leading and trailing whitespace. -/
def pyStrip (s : String) : String :=
  String.mk (((s.data.dropWhile pyWhitespace).reverse.dropWhile pyWhitespace).reverse)

/-- `send_chat_message`: strip the entry text; if the result is falsy (empty)
return with no effect; otherwise show the user line, clear the entry, store
`"[ts] User: message"`, disable the entry and the send button, show the
typing indicator, and start the API thread. -/
def send_chat_message (ts : String) (st : ChatUiState) : ChatUiState :=
  let user_message := pyStrip st.entry_text
  if user_message = "" then st
  else
    { st with
      display := st.display ++ ["You: " ++ user_message ++ "\n", typingLine],
      entry_text := "",
      session_messages := st.session_messages ++ ["[" ++ ts ++ "] User: " ++ user_message],
      entry_enabled := false,
      send_enabled := false,
      thread_started := true }

/-- `_save_message_to_history(sender, message)`: if the session list is
`None`, return; otherwise append `"[HH:MM:SS] sender: message"` to it. -/
def save_message_to_history (current_session_messages : Option (List String))
    (ts sender message : String) : Option (List String) :=
  match current_session_messages with
  | none => none
  | some msgs => some (msgs ++ ["[" ++ ts ++ "] " ++ sender ++ ": " ++ message])

/-- `_save_complete_session`: if the session list is empty or the start time
unset, return; otherwise append one CSV row `[start, join(" | ", messages)]`
to the history file and clear the session list and start time. The file is
modelled as its list of rows; returns `(file, messages, start_time)` after. -/
def save_complete_session (file : List (List String))
    (session_start_time : Option String) (msgs : List String) :
    List (List String) × List String × Option String :=
  if msgs = [] then (file, msgs, session_start_time)
  else
    match session_start_time with
    | none => (file, msgs, none)
    | some start => (file ++ [[start, String.intercalate " | " msgs]], [], none)

/-- Session-level state for `open_chat_window`: `chat_window_exists` is `none`
when `self.chat_window is None`, `some b` when a window object exists with
`winfo_exists()` equal to `b`; `windows_created` counts `CTkToplevel`
constructions. -/
structure SessionState where
  chat_window_exists : Option Bool
  lifted : Bool
  current_session_messages : List String
  session_start_time : Option String
  windows_created : Nat
deriving DecidableEq

/-- `open_chat_window`: if a chat window exists and is alive, `lift()` it and
return; otherwise start a new session (`_create_new_chat_session` resets the
message list and sets the start time to now) and build a new window. -/
def open_chat_window (now : String) (st : SessionState) : SessionState :=
  match st.chat_window_exists with
  | some true => { st with lifted := true }
  | _ =>
      { st with chat_window_exists := some true,
                current_session_messages := [],
                session_start_time := some now,
                windows_created := st.windows_created + 1 }

/-- C6: whatever the API outcome — uninitialized chat, raised exception, or a
reply — the handler pair always re-enables the entry and the send button, and
the displayed reply is the model text on success and the
`"Meow... (Error: ...)"` string otherwise; a failed call never leaves the chat
input disabled. -/
theorem chat_error_recovery (gemini_chat : Option Unit) (outcome : ApiOutcome)
    (ts : String) (st : ChatUiState) :
    ((gemini_roundtrip gemini_chat outcome ts st).entry_enabled = true ∧
     (gemini_roundtrip gemini_chat outcome ts st).send_enabled = true) ∧
    (gemini_chat = none →
      get_gemini_response gemini_chat outcome =
        "Meow... (Error: Gemini is not initialized.)") ∧
    (∀ e, gemini_chat ≠ none → outcome = ApiOutcome.err e →
      get_gemini_response gemini_chat outcome = "Meow... (Error: " ++ e ++ ")") ∧
    (∀ t, gemini_chat ≠ none → outcome = ApiOutcome.ok t →
      get_gemini_response gemini_chat outcome = t) ∧
    (gemini_roundtrip gemini_chat outcome ts st).display =
      (st.display.filter (fun m => m != typingLine)) ++
        ["Neko: " ++ get_gemini_response gemini_chat outcome ++ "\n\n"] := by
  refine ⟨⟨rfl, rfl⟩, ?_, ?_, ?_, rfl⟩
  · intro h
    subst h
    rfl
  · intro e hne hout
    subst hout
    cases gemini_chat with
    | none => exact absurd rfl hne
    | some u => rfl
  · intro t hne hout
    subst hout
    cases gemini_chat with
    | none => exact absurd rfl hne
    | some u => rfl

/-- Witness for C6: the uninitialized-chat error case still re-enables the
input. -/
theorem chat_error_recovery_witness :
    get_gemini_response none (ApiOutcome.err "boom") =
      "Meow... (Error: Gemini is not initialized.)" ∧
    (gemini_roundtrip none (ApiOutcome.err "boom") "12:00:00"
      ⟨"", true, true, [], [], false⟩).entry_enabled = true :=
  ⟨(chat_error_recovery none (ApiOutcome.err "boom") "12:00:00"
      ⟨"", true, true, [], [], false⟩).2.1 rfl,
   (chat_error_recovery none (ApiOutcome.err "boom") "12:00:00"
      ⟨"", true, true, [], [], false⟩).1.1⟩

/-- C7: each stored chat message is the timestamped string
`"[HH:MM:SS] sender: message"`, and closing the window appends the session as
exactly one new row — the start timestamp plus the joined messages — leaving
every previously written row in place. -/
theorem session_log_append (file : List (List String)) (msgs : List String)
    (ts start sender message : String) (hne : msgs ≠ []) :
    save_message_to_history (some msgs) ts sender message =
      some (msgs ++ ["[" ++ ts ++ "] " ++ sender ++ ": " ++ message]) ∧
    (save_complete_session file (some start) msgs).1 =
      file ++ [[start, String.intercalate " | " msgs]] ∧
    (save_complete_session file (some start) msgs).1.length = file.length + 1 ∧
    (save_complete_session file (some start) msgs).1.take file.length = file := by
  refine ⟨rfl, ?_, ?_, ?_⟩
  · simp [save_complete_session, hne]
  · simp [save_complete_session, hne]
  · simp [save_complete_session, hne, List.take_left]

/-- Witness for C7 on a one-message session. -/
theorem session_log_append_witness :
    save_message_to_history (some ["[10:00:00] User: hi"]) "10:00:01" "Neko" "meow" =
      some (["[10:00:00] User: hi"] ++ ["[10:00:01] Neko: meow"]) ∧
    (save_complete_session [["h", "x"]] (some "2025-01-01 10:00:00")
        ["[10:00:00] User: hi"]).1 =
      [["h", "x"]] ++ [["2025-01-01 10:00:00",
        String.intercalate " | " ["[10:00:00] User: hi"]]] :=
  ⟨(session_log_append [["h", "x"]] ["[10:00:00] User: hi"] "10:00:01"
      "2025-01-01 10:00:00" "Neko" "meow" (List.cons_ne_nil _ _)).1,
   (session_log_append [["h", "x"]] ["[10:00:00] User: hi"] "10:00:01"
      "2025-01-01 10:00:00" "Neko" "meow" (List.cons_ne_nil _ _)).2.1⟩

/-- C9: on an entry text that is empty or all whitespace, `send_chat_message`
returns with no effect at all: the state (display, session list, enabled
flags, thread flag) is unchanged. -/
theorem send_chat_message_blank_noop (ts : String) (st : ChatUiState)
    (h : st.entry_text.data.all pyWhitespace = true) :
    send_chat_message ts st = st := by
  have hall : ∀ c ∈ st.entry_text.data, pyWhitespace c := by
    simpa [List.all_eq_true] using h
  have h1 : st.entry_text.data.dropWhile pyWhitespace = [] :=
    List.dropWhile_eq_nil_iff.mpr hall
  have hstrip : pyStrip st.entry_text = "" := by
    simp [pyStrip, h1]
  simp [send_chat_message, hstrip]

/-- Witness for C9 on a whitespace-only entry. -/
theorem send_chat_message_blank_noop_witness :
    send_chat_message "09:00:00" ⟨"  \t", true, true, [], [], false⟩ =
      ⟨"  \t", true, true, [], [], false⟩ :=
  send_chat_message_blank_noop "09:00:00" ⟨"  \t", true, true, [], [], false⟩
    (by decide)

/-- C10: calling `open_chat_window` while a live chat window exists only lifts
it: no second window is created and the current session state (message list
and start time) is untouched. -/
theorem open_chat_window_unique (now : String) (st : SessionState)
    (h : st.chat_window_exists = some true) :
    (open_chat_window now st).current_session_messages = st.current_session_messages ∧
    (open_chat_window now st).session_start_time = st.session_start_time ∧
    (open_chat_window now st).windows_created = st.windows_created ∧
    (open_chat_window now st).chat_window_exists = st.chat_window_exists ∧
    (open_chat_window now st).lifted = true := by
  simp [open_chat_window, h]

/-- Witness for C10 with a live window and a nonempty session. -/
theorem open_chat_window_unique_witness :
    (open_chat_window "t1" ⟨some true, false, ["m"], some "t0", 1⟩).current_session_messages
      = ["m"] ∧
    (open_chat_window "t1" ⟨some true, false, ["m"], some "t0", 1⟩).session_start_time
      = some "t0" ∧
    (open_chat_window "t1" ⟨some true, false, ["m"], some "t0", 1⟩).windows_created = 1 ∧
    (open_chat_window "t1" ⟨some true, false, ["m"], some "t0", 1⟩).chat_window_exists
      = some true ∧
    (open_chat_window "t1" ⟨some true, false, ["m"], some "t0", 1⟩).lifted = true :=
  open_chat_window_unique "t1" ⟨some true, false, ["m"], some "t0", 1⟩ rfl

end DesktopCat
